import Mathlib

/-!
Verification of the drctr drone-control client.

The development shallowly embeds the Rust sources:
  src/main.rs      - heartbeat codec, command arbiter and transport loop
  src/handshake.rs - RTSP handshake (get_server_port, perform)
  src/video.rs     - video receiver (decoder variant present in src/)
Strings are modelled as lists of byte values (the inputs of interest are
ASCII), machine integers as Nat, and instants/durations as Nat milliseconds.
-/

namespace Drctr

/-! Byte strings: Rust str and String values modelled as lists of bytes. -/

abbrev RStr := List Nat

/-- Coerces an ASCII Lean string literal into the byte-list model. -/
def str (s : String) : RStr := s.data.map Char.toNat

/-- Rust str.starts_with: the second list is a leading segment of the first. -/
def startsWith : RStr → RStr → Bool
  | _, [] => true
  | [], _ :: _ => false
  | a :: as, b :: bs => a == b && startsWith as bs

/-- Rust str.split(c): splits at every occurrence of the byte c, keeping
empty pieces, so a string with n separators yields n+1 pieces. -/
def splitOnChar (c : Nat) : RStr → List RStr
  | [] => [[]]
  | b :: rest =>
    let r := splitOnChar c rest
    if b == c then [] :: r
    else
      match r with
      | [] => [[b]]
      | h :: t => (b :: h) :: t

/-- The ASCII whitespace bytes recognised by Rust char::is_whitespace. -/
def isWS (b : Nat) : Bool := b == 32 || (9 ≤ b && b ≤ 13)

/-- Rust str.trim restricted to ASCII input: strips leading and trailing
whitespace bytes. -/
def trimStr (s : RStr) : RStr :=
  ((s.dropWhile isWS).reverse.dropWhile isWS).reverse

/-- Rust str.lines: split at every LF, drop a final empty piece produced by a
trailing LF, and strip one trailing CR from each line. -/
def rustLines (s : RStr) : List RStr :=
  let parts := splitOnChar 10 s
  let parts := if parts.getLast? == some [] then parts.dropLast else parts
  parts.map (fun l => if l.getLast? == some 13 then l.dropLast else l)

/-- Rust str.split_whitespace: maximal runs of non-whitespace bytes. -/
def splitWhitespaceStr (s : RStr) : List RStr :=
  (splitOnChar2 s).filter (fun t => t ≠ [])
where
  /-- splits at every whitespace byte, keeping empty pieces. -/
  splitOnChar2 : RStr → List RStr
    | [] => [[]]
    | b :: rest =>
      let r := splitOnChar2 rest
      if isWS b then [] :: r
      else
        match r with
        | [] => [[b]]
        | h :: t => (b :: h) :: t

/-- Rust str.parse::<u16>: an optional leading plus sign, then at least one
ASCII digit, with the resulting value below 2^16; anything else fails. -/
def parseU16 (s : RStr) : Option Nat :=
  let t := match s with
    | 43 :: rest => rest
    | _ => s
  if t = [] then none
  else if t.all (fun b => 48 ≤ b && b ≤ 57) then
    let n := t.foldl (fun acc b => acc * 10 + (b - 48)) 0
    if n < 65536 then some n else none
  else none

/-! Heartbeat codec, from src/main.rs. -/

/-- Rust type Heartbeat = [u8; 9], bytes as Nat. -/
abbrev Heartbeat := List Nat

/-- Rust type ControlBits = [u8; 5], its five bytes as named fields. -/
structure ControlBits where
  b0 : Nat
  b1 : Nat
  b2 : Nat
  b3 : Nat
  b4 : Nat
deriving DecidableEq

/-- Embeds create_heartbeat of src/main.rs (lines 44-57): frame the five
control bytes between the fixed header 0x03 0x66 and trailer 0x99, with the
XOR checksum of the five control bytes in byte 7. -/
def create_heartbeat (ctrl_bits : ControlBits) : Heartbeat :=
  let verif_bit : Nat :=
    ctrl_bits.b0 ^^^ ctrl_bits.b1 ^^^ ctrl_bits.b2 ^^^ ctrl_bits.b3 ^^^ ctrl_bits.b4
  [0x03, 0x66, ctrl_bits.b0, ctrl_bits.b1, ctrl_bits.b2, ctrl_bits.b3,
    ctrl_bits.b4, verif_bit, 0x99]

/-- Embeds DEFAULT_CTRL_BITS of src/main.rs (line 61). -/
def DEFAULT_CTRL_BITS : ControlBits := ⟨0x80, 0x80, 0x80, 0x80, 0x00⟩

/-- Embeds the standby_payload value built in main (src/main.rs line 227). -/
def standby_payload : Heartbeat := create_heartbeat DEFAULT_CTRL_BITS

/-! Command arbiter, from run_network_loop in src/main.rs. Instants and
durations are Nat milliseconds. -/

/-- Embeds struct Command of src/main.rs. -/
structure Command where
  payload : Heartbeat
  duration : Nat
  priority : Nat
deriving DecidableEq

/-- Embeds struct ActiveCommand of src/main.rs. -/
structure ActiveCommand where
  payload : Heartbeat
  end_time : Nat
  priority : Nat
deriving DecidableEq

/-- Embeds the request-polling block of run_network_loop (src/main.rs lines
157-190): on a received command, install it when no command is active, or
when its priority is greater than or equal to the active priority; otherwise
keep the active command. The installed expiry is now plus the duration. -/
def pollCommand (cur : Option ActiveCommand) (inc : Option Command) (now : Nat) :
    Option ActiveCommand :=
  match inc with
  | none => cur
  | some new_cmd =>
    let should_override : Bool :=
      match cur with
      | some active_cmd => decide (new_cmd.priority ≥ active_cmd.priority)
      | none => true
    if should_override then
      some { payload := new_cmd.payload
             end_time := now + new_cmd.duration
             priority := new_cmd.priority }
    else cur

/-- Embeds the expiry block of run_network_loop (src/main.rs lines 192-199):
clear the active command once now has reached its end_time. -/
def expireCommand (cur : Option ActiveCommand) (now : Nat) : Option ActiveCommand :=
  match cur with
  | some active_cmd => if now ≥ active_cmd.end_time then none else cur
  | none => none

/-- One arbitration step of the loop body: poll then expire, as the two
blocks execute in order each tick. -/
def arbiterTick (cur : Option ActiveCommand) (inc : Option Command) (now : Nat) :
    Option ActiveCommand :=
  expireCommand (pollCommand cur inc now) now

/-- Embeds the payload choice of the send block (src/main.rs lines 201-211):
the active payload when a command is in force, else the standby payload. -/
def currentPayload (cur : Option ActiveCommand) (standby : Heartbeat) : Heartbeat :=
  match cur with
  | some active_cmd => active_cmd.payload
  | none => standby

/-! Request channel, from main in src/main.rs: mpsc::channel() is an
unbounded FIFO queue; Receiver::try_recv takes the oldest pending request
when one exists and leaves the rest queued. -/

/-- Embeds rx.try_recv() on a FIFO backlog: the oldest pending request and
the remaining queue. -/
def tryRecv : List Command → Option Command × List Command
  | [] => (none, [])
  | c :: rest => (some c, rest)

/-- One tick of the loop as seen from the queue: try_recv once, then run the
arbitration step on whatever was received. -/
def queueTick (st : Option ActiveCommand) (q : List Command) (now : Nat) :
    Option ActiveCommand × List Command :=
  (arbiterTick st (tryRecv q).1 now, (tryRecv q).2)

/-! Transport loop with fallible sends, from run_network_loop in
src/main.rs. A tick input carries the polled request, the tick instant, and
the outcome the network would give each send_to call this tick (none for
success, some e for an io error code). -/

/-- The inputs one loop iteration consumes. -/
structure TickInput where
  inc : Option Command
  now : Nat
  hbErr : Option Nat
  auxErr : Option Nat
deriving DecidableEq

/-- The loop-local mutable state of run_network_loop. -/
structure LoopState where
  current_command : Option ActiveCommand
  small_hb_time : Nat
deriving DecidableEq

/-- Embeds one iteration of run_network_loop (src/main.rs lines 157-218):
poll, expire, send the current payload (the question-mark operator aborts on
error), then send the 2-byte auxiliary keepalive when a second has elapsed.
Returns the packets actually handed to send_to, the new state, and the error
that aborted the iteration, if any. -/
def tickE (st : LoopState) (i : TickInput) : List (List Nat) × LoopState × Option Nat :=
  let cmd2 := arbiterTick st.current_command i.inc i.now
  let payload := currentPayload cmd2 standby_payload
  match i.hbErr with
  | some e => ([], ⟨cmd2, st.small_hb_time⟩, some e)
  | none =>
    if 1000 ≤ i.now - st.small_hb_time then
      match i.auxErr with
      | some e => ([payload], ⟨cmd2, st.small_hb_time⟩, some e)
      | none => ([payload, [0x01, 0x01]], ⟨cmd2, i.now⟩, none)
    else ([payload], ⟨cmd2, st.small_hb_time⟩, none)

/-- Embeds the while loop of run_network_loop over a finite trace of tick
inputs: iterate tickE, stopping at the first send error, which the function
returns to the caller together with every packet transmitted up to it. -/
def runLoop (st : LoopState) : List TickInput → List (List Nat) × Option Nat
  | [] => ([], none)
  | i :: rest =>
    let r := tickE st i
    match r.2.2 with
    | some e => (r.1, some e)
    | none => (r.1 ++ (runLoop r.2.1 rest).1, (runLoop r.2.1 rest).2)

/-! RTSP handshake, from src/handshake.rs. -/

/-- The line predicate of get_server_port: line.starts_with("Transport:"). -/
def transportPred (l : RStr) : Bool := startsWith l (str "Transport:")

/-- The part predicate of get_server_port:
part.trim().starts_with("server_port="). -/
def partPred (p : RStr) : Bool := startsWith (trimStr p) (str "server_port=")

/-- The field-extraction chain of get_server_port (src/handshake.rs lines
7-21) applied to the response's lines: find the Transport line, split it at
semicolons, find the server_port part, take what follows the equals sign,
and keep the first port of a dash-separated range. -/
def portFieldFromLines (ls : List RStr) : Option RStr := do
  let transport_line ← ls.find? transportPred
  let part ← (splitOnChar 59 transport_line).find? partPred
  let v ← (splitOnChar 61 part).get? 1
  (splitOnChar 45 v).head?

/-- get_server_port at the level of header lines: extract the field then
parse it as a u16. -/
def portFromLines (ls : List RStr) : Option Nat :=
  (portFieldFromLines ls).bind parseU16

/-- Embeds get_server_port of src/handshake.rs (lines 7-23). -/
def get_server_port (response : RStr) : Option Nat :=
  portFromLines (rustLines response)

/-- The line predicate of the PLAY session extraction:
l.starts_with("Session:"). -/
def sessionPred (l : RStr) : Bool := startsWith l (str "Session:")

/-- Embeds the session extraction inside the PLAY request of perform
(src/handshake.rs lines 89-101): the second whitespace-delimited token of the
first Session line, defaulting to the empty string at every missing step. -/
def sessionToken (resp : RStr) : RStr :=
  match (rustLines resp).find? sessionPred with
  | none => []
  | some l => ((splitWhitespaceStr l).get? 1).getD []

/-- The fixed text of the PLAY request up to the session token. -/
def playReqPre : RStr :=
  str "PLAY rtsp://192.168.1.1:7070/webcam RTSP/1.0\r\nRange: npt=0.000-\r\nCSeq: 4\r\nUser-Agent: ijkplayer\r\nSession: "

/-- The fixed text of the PLAY request after the session token. -/
def playReqSuf : RStr := str "\r\n\r\n"

/-- Embeds the format! call building the PLAY request in perform: the token
is spliced verbatim between the fixed surrounding text. -/
def buildPlayRequest (token : RStr) : RStr := playReqPre ++ token ++ playReqSuf

/-- The error message of the ok_or call in perform (src/handshake.rs line
81). -/
def setupErrMsg : String := "Could not parse setup response for server port."

/-- The outcome of perform from the SETUP response onwards. -/
inductive HandshakeResult where
  | protocolError : String → HandshakeResult
  | played : Nat → RStr → HandshakeResult
deriving DecidableEq

/-- Embeds the tail of perform (src/handshake.rs lines 76-101): parse the
SETUP response for the server port; on failure return the protocol error
before any PLAY request exists, on success send the PLAY request carrying
the echoed session token. -/
def performAfterSetup (setup_response : RStr) : HandshakeResult :=
  match get_server_port setup_response with
  | none => .protocolError setupErrMsg
  | some server_port =>
    .played server_port (buildPlayRequest (sessionToken setup_response))

/-! Media relay. The UDP-forwarding variant of run_video_receiver described
by the spec is not present under src/ (src/video.rs holds the
decoder/renderer variant), so the relay loop is modelled from the spec. -/

/-- Embeds config VIDEO_FWD_ADDR of src/main.rs (line 21), the fixed local
playback address the relay forwards to. -/
def VIDEO_FWD_ADDR : String := "127.0.0.1:9090"

/-- One observable event of a relay iteration: a successful bounded-timeout
receive on the media or control-feedback port, a timeout on either, or a
non-timeout receive error on the media port. -/
inductive RelayEvent where
  | mediaRecv : RStr → RelayEvent
  | ctrlRecv : RStr → RelayEvent
  | mediaTimeout : RelayEvent
  | ctrlTimeout : RelayEvent
  | mediaError : RelayEvent
deriving DecidableEq

/-- A datagram forwarded by the relay: destination address and exact bytes. -/
structure Forwarded where
  dest : String
  data : RStr
deriving DecidableEq

/-- Modelled from the spec: the Media Relay loop of the UDP-forwarding
run_video_receiver, absent from src/. Each iteration forwards a datagram
received on the media port verbatim to the fixed playback address, discards
anything received on the control-feedback port, continues on timeout, and
stops reporting failure on a non-timeout media receive error. Returns the
forwarded datagrams in order and whether the relay failed. -/
def runRelay : List RelayEvent → List Forwarded × Bool
  | [] => ([], false)
  | .mediaRecv d :: rest =>
    let r := runRelay rest
    (⟨VIDEO_FWD_ADDR, d⟩ :: r.1, r.2)
  | .ctrlRecv _ :: rest => runRelay rest
  | .mediaTimeout :: rest => runRelay rest
  | .ctrlTimeout :: rest => runRelay rest
  | .mediaError :: _ => ([], true)

/-! Claims. -/

/-- Claim C1: for every arbiter step, a CommandRequest arriving with no
ActiveCommand is installed with expiry now plus duration; one arriving while
an ActiveCommand exists is installed iff its priority is greater than or
equal to the active priority (ties go to the newest request), and otherwise
the request is discarded and the existing ActiveCommand is left completely
unchanged. -/
theorem c1_arbiter_install_preempt :
    (∀ (cmd : Command) (now : Nat),
      pollCommand none (some cmd) now =
        some ⟨cmd.payload, now + cmd.duration, cmd.priority⟩) ∧
    (∀ (ac : ActiveCommand) (cmd : Command) (now : Nat),
      ac.priority ≤ cmd.priority →
        pollCommand (some ac) (some cmd) now =
          some ⟨cmd.payload, now + cmd.duration, cmd.priority⟩) ∧
    (∀ (ac : ActiveCommand) (cmd : Command) (now : Nat),
      cmd.priority < ac.priority →
        pollCommand (some ac) (some cmd) now = some ac) := by
  refine ⟨fun cmd now => rfl, fun ac cmd now h => ?_, fun ac cmd now h => ?_⟩
  · simp [pollCommand, ge_iff_le, h]
  · simp [pollCommand, ge_iff_le, Nat.not_le.mpr h]

/-- Witness for C1 at concrete inputs: a request installs into the empty
state, an equal-priority request preempts, and a lower-priority request
leaves the active command unchanged. -/
theorem c1_arbiter_install_preempt_witness :
    pollCommand none (some ⟨[1], 2000, 5⟩) 40 = some ⟨[1], 2040, 5⟩ ∧
    pollCommand (some ⟨[7], 99, 5⟩) (some ⟨[1], 2000, 5⟩) 40 = some ⟨[1], 2040, 5⟩ ∧
    pollCommand (some ⟨[7], 99, 6⟩) (some ⟨[1], 2000, 5⟩) 40 = some ⟨[7], 99, 6⟩ :=
  ⟨c1_arbiter_install_preempt.1 ⟨[1], 2000, 5⟩ 40,
   c1_arbiter_install_preempt.2.1 ⟨[7], 99, 5⟩ ⟨[1], 2000, 5⟩ 40 (by decide),
   c1_arbiter_install_preempt.2.2 ⟨[7], 99, 6⟩ ⟨[1], 2000, 5⟩ 40 (by decide)⟩

/-- Claim C2: on every tick, whether or not a request arrived, an
ActiveCommand whose expiry has been reached is cleared; consequently a
command of duration d installed at time t is no longer active at any tick
with now at or past t plus d, and such a tick with no replacement request
transmits the standby payload. -/
theorem c2_expiry_clears :
    (∀ (cur : Option ActiveCommand) (inc : Option Command) (now : Nat)
        (ac : ActiveCommand),
      pollCommand cur inc now = some ac → ac.end_time ≤ now →
        arbiterTick cur inc now = none ∧
        currentPayload (arbiterTick cur inc now) standby_payload = standby_payload) ∧
    (∀ (cmd : Command) (t now : Nat),
      t + cmd.duration ≤ now →
        arbiterTick (pollCommand none (some cmd) t) none now = none ∧
        currentPayload (arbiterTick (pollCommand none (some cmd) t) none now)
            standby_payload = standby_payload) := by
  constructor
  · intro cur inc now ac h hle
    have : arbiterTick cur inc now = none := by
      unfold arbiterTick
      rw [h]
      simp [expireCommand, ge_iff_le, hle]
    exact ⟨this, by simp [this, currentPayload]⟩
  · intro cmd t now h
    have hpoll : pollCommand none (some cmd) t =
        some ⟨cmd.payload, t + cmd.duration, cmd.priority⟩ := rfl
    have : arbiterTick (pollCommand none (some cmd) t) none now = none := by
      simp [arbiterTick, hpoll, pollCommand, expireCommand, ge_iff_le, h]
    exact ⟨this, by simp [this, currentPayload]⟩

/-- Witness for C2 at concrete inputs: a command of duration 2000 installed
at time 0 is cleared at the tick with now = 2000 and the standby payload is
transmitted. -/
theorem c2_expiry_clears_witness :
    (arbiterTick (some ⟨[1], 2000, 5⟩) none 2000 = none ∧
      currentPayload (arbiterTick (some ⟨[1], 2000, 5⟩) none 2000) standby_payload =
        standby_payload) ∧
    (arbiterTick (pollCommand none (some ⟨[1], 2000, 5⟩) 0) none 2000 = none ∧
      currentPayload (arbiterTick (pollCommand none (some ⟨[1], 2000, 5⟩) 0) none 2000)
          standby_payload = standby_payload) :=
  ⟨c2_expiry_clears.1 (some ⟨[1], 2000, 5⟩) none 2000 ⟨[1], 2000, 5⟩ rfl (by decide),
   c2_expiry_clears.2 ⟨[1], 2000, 5⟩ 0 2000 (by decide)⟩

/-- Claim C3: for every 5-byte control vector, create_heartbeat returns the
9-byte packet with header bytes 0x03 and 0x66, the five control bytes in
order, the XOR checksum of bytes 2 to 6 in byte 7, and trailer 0x99; being a
function of the vector it is total and deterministic and rejects no input. -/
theorem c3_create_heartbeat_frame : ∀ v : ControlBits,
    create_heartbeat v =
      [0x03, 0x66, v.b0, v.b1, v.b2, v.b3, v.b4,
        v.b0 ^^^ v.b1 ^^^ v.b2 ^^^ v.b3 ^^^ v.b4, 0x99] ∧
    (create_heartbeat v).length = 9 ∧
    (create_heartbeat v).get? 0 = some 0x03 ∧
    (create_heartbeat v).get? 1 = some 0x66 ∧
    (create_heartbeat v).get? 2 = some v.b0 ∧
    (create_heartbeat v).get? 3 = some v.b1 ∧
    (create_heartbeat v).get? 4 = some v.b2 ∧
    (create_heartbeat v).get? 5 = some v.b3 ∧
    (create_heartbeat v).get? 6 = some v.b4 ∧
    (create_heartbeat v).get? 7 =
      some (v.b0 ^^^ v.b1 ^^^ v.b2 ^^^ v.b3 ^^^ v.b4) ∧
    (create_heartbeat v).get? 8 = some 0x99 := by
  intro v
  exact ⟨rfl, rfl, rfl, rfl, rfl, rfl, rfl, rfl, rfl, rfl, rfl⟩

/-- Claim C9: the standby heartbeat payload, create_heartbeat applied to the
default control vector, equals exactly the nine bytes 0x03 0x66 0x80 0x80
0x80 0x80 0x00 0x00 0x99, and this one value is both the default payload and
the payload transmitted by any tick whose active command has expired. -/
theorem c9_standby_payload :
    standby_payload = [0x03, 0x66, 0x80, 0x80, 0x80, 0x80, 0x00, 0x00, 0x99] ∧
    standby_payload = create_heartbeat DEFAULT_CTRL_BITS ∧
    (∀ (ac : ActiveCommand) (now : Nat),
      ac.end_time ≤ now →
        currentPayload (arbiterTick (some ac) none now)
            [0x03, 0x66, 0x80, 0x80, 0x80, 0x80, 0x00, 0x00, 0x99] =
          [0x03, 0x66, 0x80, 0x80, 0x80, 0x80, 0x00, 0x00, 0x99]) := by
  refine ⟨by decide, rfl, fun ac now h => ?_⟩
  simp [arbiterTick, pollCommand, expireCommand, ge_iff_le, h, currentPayload]

/-- Witness for C9 at a concrete input: an active command expired at time 10
yields the standby bytes. -/
theorem c9_standby_payload_witness :
    currentPayload (arbiterTick (some ⟨[1], 5, 0⟩) none 10)
        [0x03, 0x66, 0x80, 0x80, 0x80, 0x80, 0x00, 0x00, 0x99] =
      [0x03, 0x66, 0x80, 0x80, 0x80, 0x80, 0x00, 0x00, 0x99] :=
  c9_standby_payload.2.2 ⟨[1], 5, 0⟩ 10 (by decide)

/-- Claim C5, counterexample: with the backlog of two pending requests c1
(priority 5) then c2 (priority 3, different payload) queued before a tick,
the code's try_recv consumes the OLDEST request c1, installs it, and leaves
c2 queued; the next tick consumes c2 from the queue and discards it by
priority, so the latest request of the interval is never the one used —
contradicting the claimed collapse to the latest request. -/
theorem c5_latest_wins_counterexample :
    (queueTick none [⟨[1], 2000, 5⟩, ⟨[2], 2000, 3⟩] 0).1 = some ⟨[1], 2000, 5⟩ ∧
    (queueTick none [⟨[1], 2000, 5⟩, ⟨[2], 2000, 3⟩] 0).1 ≠ some ⟨[2], 2000, 3⟩ ∧
    (queueTick none [⟨[1], 2000, 5⟩, ⟨[2], 2000, 3⟩] 0).2 = [⟨[2], 2000, 3⟩] ∧
    (queueTick (some ⟨[1], 2000, 5⟩) [⟨[2], 2000, 3⟩] 100).1 = some ⟨[1], 2000, 5⟩ ∧
    (queueTick (some ⟨[1], 2000, 5⟩) [⟨[2], 2000, 3⟩] 100).2 = [] := by
  decide

/-- Claim C5 as amended: the transport loop consumes at most one pending
request per tick, but the channel is an unbounded FIFO queue: the request
consumed is the oldest pending one, and the remaining backlog stays queued
for later ticks with no collapsing to the latest request. -/
theorem c5_fifo_one_per_tick :
    ∀ (st : Option ActiveCommand) (q : List Command) (now : Nat),
      queueTick st q now = (arbiterTick st q.head? now, q.tail) := by
  intro st q now
  cases q <;> rfl

/-- Claim C7: any transport-level send error — on the heartbeat or standby
send, or on the auxiliary keepalive send — immediately aborts the transport
loop and is propagated to the caller as fatal: no retry happens and no
further packet is transmitted by that loop, whatever ticks would have
followed. A failing payload send transmits nothing that tick; a failing
auxiliary send happens after exactly the one payload packet of its tick. -/
theorem c7_send_error_aborts :
    (∀ (st : LoopState) (i : TickInput) (rest : List TickInput)
        (sent : List (List Nat)) (st2 : LoopState) (e : Nat),
      tickE st i = (sent, st2, some e) →
        runLoop st (i :: rest) = (sent, some e)) ∧
    (∀ (st : LoopState) (i : TickInput) (e : Nat),
      i.hbErr = some e →
        (tickE st i).1 = [] ∧ (tickE st i).2.2 = some e) ∧
    (∀ (st : LoopState) (i : TickInput) (e : Nat),
      i.hbErr = none → i.auxErr = some e → 1000 ≤ i.now - st.small_hb_time →
        (tickE st i).1 =
          [currentPayload (arbiterTick st.current_command i.inc i.now) standby_payload] ∧
        (tickE st i).2.2 = some e) := by
  refine ⟨fun st i rest sent st2 e h => ?_, fun st i e h => ?_, fun st i e h ha hs => ?_⟩
  · simp only [runLoop, h]
  · simp [tickE, h]
  · simp [tickE, h, ha, hs]

/-- Witness for C7 at concrete inputs: a heartbeat-send error 7 at the first
tick aborts a two-tick trace with nothing transmitted and error 7 returned,
and an auxiliary-send error at an elapsed-second tick errors after the one
payload packet. -/
theorem c7_send_error_aborts_witness :
    runLoop ⟨none, 0⟩ [⟨none, 0, some 7, none⟩, ⟨none, 100, none, none⟩] =
      ([], some 7) ∧
    (tickE ⟨none, 0⟩ ⟨none, 1500, none, some 9⟩).1 = [standby_payload] ∧
    (tickE ⟨none, 0⟩ ⟨none, 1500, none, some 9⟩).2.2 = some 9 :=
  ⟨c7_send_error_aborts.1 ⟨none, 0⟩ ⟨none, 0, some 7, none⟩
      [⟨none, 100, none, none⟩] [] ⟨none, 0⟩ 7 rfl,
   (c7_send_error_aborts.2.2 ⟨none, 0⟩ ⟨none, 1500, none, some 9⟩ 9 rfl rfl
      (by decide)).1,
   (c7_send_error_aborts.2.2 ⟨none, 0⟩ ⟨none, 1500, none, some 9⟩ 9 rfl rfl
      (by decide)).2⟩

/-- Claim C6: a datagram of any bytes received on the media port is
forwarded exactly once, byte-identical, to the configured local playback
address, and a datagram received on the control-feedback port is never
forwarded anywhere and never makes the relay fail. -/
theorem c6_relay_forwarding :
    ∀ (d : RStr) (evs : List RelayEvent),
      runRelay (.mediaRecv d :: evs) =
        (⟨VIDEO_FWD_ADDR, d⟩ :: (runRelay evs).1, (runRelay evs).2) ∧
      runRelay (.ctrlRecv d :: evs) = runRelay evs := by
  intro d evs
  exact ⟨rfl, rfl⟩

/-- The Transport header line of the spec's range test vector. -/
def tl53796 : RStr := str "Transport: RTP/AVP/UDP;unicast;server_port=53796-53797"

/-- The Transport header line of the spec's single-port test vector. -/
def tl6000 : RStr := str "Transport: RTP/AVP/UDP;unicast;server_port=6000"

/-- Claim C4: a SETUP response whose Transport line carries
server_port=53796-53797 negotiates port 53796, one carrying server_port=6000
with no range negotiates 6000 (whatever other non-Transport lines surround
it), and a response with no Transport line makes the handshake fail with the
protocol error before any PLAY request is sent. -/
theorem c4_setup_port_negotiation :
    (∀ pre post : List RStr, (∀ l ∈ pre, transportPred l = false) →
      portFromLines (pre ++ tl53796 :: post) = some 53796) ∧
    (∀ pre post : List RStr, (∀ l ∈ pre, transportPred l = false) →
      portFromLines (pre ++ tl6000 :: post) = some 6000) ∧
    (∀ resp : RStr, (∀ l ∈ rustLines resp, transportPred l = false) →
      get_server_port resp = none ∧
      performAfterSetup resp = .protocolError setupErrMsg ∧
      ∀ (p : Nat) (t : RStr), performAfterSetup resp ≠ .played p t) := by
  refine ⟨fun pre post h => ?_, fun pre post h => ?_, fun resp h => ?_⟩
  · have h1 : pre.find? transportPred = none :=
      List.find?_eq_none.mpr (fun x hx => by simp [h x hx])
    unfold portFromLines portFieldFromLines
    rw [List.find?_append, h1,
      List.find?_cons_of_pos post (show transportPred tl53796 by decide)]
    rfl
  · have h1 : pre.find? transportPred = none :=
      List.find?_eq_none.mpr (fun x hx => by simp [h x hx])
    unfold portFromLines portFieldFromLines
    rw [List.find?_append, h1,
      List.find?_cons_of_pos post (show transportPred tl6000 by decide)]
    rfl
  · have h1 : (rustLines resp).find? transportPred = none :=
      List.find?_eq_none.mpr (fun x hx => by simp [h x hx])
    have hgsp : get_server_port resp = none := by
      unfold get_server_port portFromLines portFieldFromLines
      rw [h1]
      rfl
    refine ⟨hgsp, ?_, ?_⟩
    · unfold performAfterSetup
      rw [hgsp]
    · intro p t hcontra
      unfold performAfterSetup at hcontra
      rw [hgsp] at hcontra
      exact HandshakeResult.noConfusion hcontra

/-- Witness for C4 at the spec's concrete test vectors: the range response
negotiates 53796, the single-port response negotiates 6000, and the
Transport-less response yields the protocol error, not a PLAY. -/
theorem c4_setup_port_negotiation_witness :
    portFromLines ([str "RTSP/1.0 200 OK", str "CSeq: 3"] ++
        tl53796 :: [str "Session: 12345678"]) = some 53796 ∧
    portFromLines ([str "RTSP/1.0 200 OK"] ++ tl6000 :: []) = some 6000 ∧
    get_server_port (str "RTSP/1.0 200 OK\r\nCSeq: 3\r\nSession: 12345678\r\n\r\n") =
      none ∧
    performAfterSetup (str "RTSP/1.0 200 OK\r\nCSeq: 3\r\nSession: 12345678\r\n\r\n") =
      .protocolError setupErrMsg ∧
    performAfterSetup (str "RTSP/1.0 200 OK\r\nCSeq: 3\r\nSession: 12345678\r\n\r\n") ≠
      .played 53796 (buildPlayRequest (str "12345678")) := by
  have h3 := c4_setup_port_negotiation.2.2
    (str "RTSP/1.0 200 OK\r\nCSeq: 3\r\nSession: 12345678\r\n\r\n") (by decide)
  exact ⟨c4_setup_port_negotiation.1 [str "RTSP/1.0 200 OK", str "CSeq: 3"]
      [str "Session: 12345678"] (by decide),
    c4_setup_port_negotiation.2.1 [str "RTSP/1.0 200 OK"] [] (by decide),
    h3.1, h3.2.1, h3.2.2 53796 (buildPlayRequest (str "12345678"))⟩

/-- Claim C10: whenever the Transport line does carry a server_port field but
its first port value fails to parse as an unsigned 16-bit integer,
get_server_port returns none and the handshake fails with the very same
terminal protocol error as when the field is absent; parseU16 indeed fails on
non-numeric text, on an empty value, and on numbers above 65535. -/
theorem c10_unparseable_port :
    (∀ resp s : RStr,
      portFieldFromLines (rustLines resp) = some s → parseU16 s = none →
        get_server_port resp = none ∧
        performAfterSetup resp = .protocolError setupErrMsg) ∧
    parseU16 (str "abc") = none ∧
    parseU16 [] = none ∧
    parseU16 (str "70000") = none ∧
    performAfterSetup (str "RTSP/1.0 200 OK\r\nCSeq: 3\r\n\r\n") =
      .protocolError setupErrMsg := by
  refine ⟨fun resp s h hp => ?_, by decide, by decide, by decide, by decide⟩
  have hgsp : get_server_port resp = none := by
    unfold get_server_port portFromLines
    rw [h]
    exact hp
  refine ⟨hgsp, ?_⟩
  unfold performAfterSetup
  rw [hgsp]

/-- Witness for C10 at a concrete input: server_port=70000 is above 65535,
so the port is not negotiated and the handshake reports the protocol
error. -/
theorem c10_unparseable_port_witness :
    get_server_port (str "Transport: RTP/AVP/UDP;unicast;server_port=70000\r\n\r\n") =
      none ∧
    performAfterSetup (str "Transport: RTP/AVP/UDP;unicast;server_port=70000\r\n\r\n") =
      .protocolError setupErrMsg :=
  c10_unparseable_port.1
    (str "Transport: RTP/AVP/UDP;unicast;server_port=70000\r\n\r\n")
    (str "70000") (by decide) (by decide)

/-- Claim C8: the session identifier of the SETUP response's Session line —
its second whitespace-delimited token — is echoed verbatim in the PLAY
request; when the Session line or its token is absent the empty token is
substituted, and the PLAY request is still sent whenever the port parsed. -/
theorem c8_session_echo :
    (∀ (resp : RStr) (p : Nat),
      get_server_port resp = some p →
        performAfterSetup resp =
          .played p (playReqPre ++ sessionToken resp ++ playReqSuf)) ∧
    (∀ resp l : RStr,
      (rustLines resp).find? sessionPred = some l →
        sessionToken resp = ((splitWhitespaceStr l).get? 1).getD []) ∧
    (∀ resp : RStr,
      (rustLines resp).find? sessionPred = none → sessionToken resp = []) := by
  refine ⟨fun resp p h => ?_, fun resp l h => ?_, fun resp h => ?_⟩
  · unfold performAfterSetup
    rw [h]
    rfl
  · unfold sessionToken
    rw [h]
  · unfold sessionToken
    rw [h]

/-- Witness for C8 at concrete inputs: the token 12345678 is echoed verbatim
inside the PLAY request of a successful handshake; a bare Session line and a
missing Session line both yield the empty token. -/
theorem c8_session_echo_witness :
    performAfterSetup (str "RTSP/1.0 200 OK\r\nTransport: RTP/AVP/UDP;unicast;server_port=6000\r\nSession: 12345678\r\n\r\n") =
      .played 6000 (playReqPre ++ str "12345678" ++ playReqSuf) ∧
    sessionToken (str "RTSP/1.0 200 OK\r\nSession:\r\n\r\n") = [] ∧
    sessionToken (str "RTSP/1.0 200 OK\r\n\r\n") = [] := by
  refine ⟨?_, ?_, ?_⟩
  · have h := c8_session_echo.1
      (str "RTSP/1.0 200 OK\r\nTransport: RTP/AVP/UDP;unicast;server_port=6000\r\nSession: 12345678\r\n\r\n")
      6000 (by decide)
    rw [h]
    decide
  · have h := c8_session_echo.2.1 (str "RTSP/1.0 200 OK\r\nSession:\r\n\r\n")
      (str "Session:") (by decide)
    rw [h]
    decide
  · exact c8_session_echo.2.2 (str "RTSP/1.0 200 OK\r\n\r\n") (by decide)

end Drctr
